import Mathlib

set_option maxRecDepth 100000
set_option maxHeartbeats 2000000

/-!
Shallow embedding of `app/qimen.py` (Qimen Dunjia chart generation), with
verification of its stated properties.

Conventions of the embedding:
* Python integers are modelled by `Nat`/`Int`.  Python's `//` and `%` are floor
  division and floor modulus; for a positive divisor these agree with Lean's
  `Int./` (`Int.ediv`) and `Int.%` (`Int.emod`), which are used whenever the
  dividend may be negative.  When the dividend is provably nonnegative the
  computation is kept in `Nat`.
* `int(365.25 * (y + 4716))` and `int(30.6001 * (m + 1))` are modelled as the
  exact rational floors `(1461 * (y + 4716)) / 4` and `(306001 * (m + 1)) / 10000`.
  For every date Python's `datetime` accepts (years 1..9999) the float products
  are exact enough that truncation agrees with the rational floor, so the
  model is faithful on the whole input domain of the source.
* Python `dict`s built with distinct keys are modelled as association lists in
  insertion order; `dict.get(k, default)` is modelled by `dictGetD`, which
  returns the last binding of `k` (dict semantics under overwriting).
* `datetime.date` subtraction `(a - b).days` is modelled as
  `daysFromCivil a - daysFromCivil b` where `daysFromCivil` is a standard
  proleptic-Gregorian day count (civil-days-from-epoch formula).
-/

/-- HEAVENLY_STEMS table of `qimen.py`. -/
def HEAVENLY_STEMS : List String :=
  ["甲", "乙", "丙", "丁", "戊", "己", "庚", "辛", "壬", "癸"]

/-- EARTHLY_BRANCHES table of `qimen.py`. -/
def EARTHLY_BRANCHES : List String :=
  ["子", "丑", "寅", "卯", "辰", "巳", "午", "未", "申", "酉", "戌", "亥"]

/-- NINE_STARS table of `qimen.py`: the nine stars in flying order. -/
def NINE_STARS : List String :=
  ["天蓬", "天芮", "天冲", "天辅", "天禽", "天心", "天柱", "天任", "天英"]

/-- EIGHT_GATES table of `qimen.py`: the eight gates in flying order. -/
def EIGHT_GATES : List String :=
  ["休", "生", "伤", "杜", "景", "死", "惊", "开"]

/-- PALACE_NUMBERS table of `qimen.py`: Lo Shu palace numbers in flying order. -/
def PALACE_NUMBERS : List Nat := [1, 2, 3, 4, 5, 6, 7, 8, 9]

/-- Leap-year test of the proleptic Gregorian calendar (Python
`calendar.isleap` semantics, as used implicitly by `datetime.date`). -/
def isLeap (y : Nat) : Bool :=
  (y % 4 == 0 && y % 100 != 0) || y % 400 == 0

/-- Number of days in a month of the (possibly leap) civil year. -/
def daysInMonth (leap : Bool) (m : Nat) : Nat :=
  if m = 2 then (if leap then 29 else 28)
  else if m = 4 ∨ m = 6 ∨ m = 9 ∨ m = 11 then 30
  else 31

/-- Validity of a civil date as accepted by Python's `datetime` module:
years 1..9999, a real month, and a day within the month's length. -/
def validDate (y m d : Nat) : Prop :=
  1 ≤ y ∧ y ≤ 9999 ∧ 1 ≤ m ∧ m ≤ 12 ∧ 1 ≤ d ∧ d ≤ daysInMonth (isLeap y) m

instance (y m d : Nat) : Decidable (validDate y m d) := by
  unfold validDate; infer_instance

/-- Embeds `julian_day` of `qimen.py`: integer Julian day number of a
Gregorian date (the function reads only year, month and day of its input). -/
def julian_day (year month day : Nat) : Int :=
  let y : Nat := if month ≤ 2 then year - 1 else year
  let m : Nat := if month ≤ 2 then month + 12 else month
  let a : Nat := y / 100
  let b : Int := 2 - (a : Int) + ((a / 4 : Nat) : Int)
  ((1461 * (y + 4716) / 4 : Nat) : Int) +
    ((306001 * (m + 1) / 10000 : Nat) : Int) + (day : Int) + b - 1524

/-- Embeds `sexagenary_day` of `qimen.py`: (stem index, branch index) of the
day pillar, `((jd + 9) mod 10, (jd + 1) mod 12)`. -/
def sexagenary_day (year month day : Nat) : Nat × Nat :=
  let jd := julian_day year month day
  (((jd + 9) % 10).toNat, ((jd + 1) % 12).toNat)

/-- Embeds `sexagenary_hour` of `qimen.py`: (stem index, branch index) of the
hour pillar from the hour of day and the day stem index (the function reads
only `dt.hour` of its datetime argument). -/
def sexagenary_hour (hour day_stem_index : Nat) : Nat × Nat :=
  let branch := ((hour + 1) / 2) % 12
  let stem := (day_stem_index * 2 + branch) % 10
  (stem, branch)

/-- The fixed table of 24 solar-term boundary (month, day) pairs, as listed
in `solar_term_index` and again in `board_and_ju` of `qimen.py`. -/
def boundaries : List (Nat × Nat) :=
  [(1, 6), (1, 20), (2, 4), (2, 19), (3, 6), (3, 21), (4, 5), (4, 20),
   (5, 5), (5, 21), (6, 6), (6, 21), (7, 7), (7, 22), (8, 7), (8, 23),
   (9, 7), (9, 23), (10, 8), (10, 23), (11, 7), (11, 22), (12, 7), (12, 22)]

/-- Python tuple comparison `(month, day) < (m, d)`: lexicographic order. -/
def pairLt (a b : Nat × Nat) : Bool :=
  a.1 < b.1 || (a.1 == b.1 && a.2 < b.2)

/-- The enumerate-and-scan loop of `solar_term_index`: at the first boundary
strictly greater than the date, return `i - 1` (or the last index 23 when
`i = 0`); if no boundary is greater, return the last index. -/
def findTermAux (month day : Nat) : Nat → List (Nat × Nat) → Nat
  | _, [] => boundaries.length - 1
  | i, b :: rest =>
      if pairLt (month, day) b then
        (if i > 0 then i - 1 else boundaries.length - 1)
      else findTermAux month day (i + 1) rest

/-- Embeds `solar_term_index` of `qimen.py` (the function reads only month
and day of its datetime argument). -/
def solar_term_index (month day : Nat) : Nat :=
  findTermAux month day 0 boundaries


/-- Day count of a proleptic Gregorian civil date (days since 1970-01-01).
Models Python's `datetime.date` subtraction: `(a - b).days` equals
`daysFromCivil a - daysFromCivil b`. -/
def daysFromCivil (y m d : Nat) : Int :=
  let yAdj : Nat := if m ≤ 2 then y - 1 else y
  let era : Nat := yAdj / 400
  let yoe : Nat := yAdj % 400
  let mp : Nat := (m + 9) % 12
  let doy : Nat := (153 * mp + 2) / 5 + (d - 1)
  let doe : Nat := yoe * 365 + yoe / 4 - yoe / 100 + doy
  (era : Int) * 146097 + (doe : Int) - 719468


/-- The `yin_mapping` dict of `board_and_ju`: three candidate ju values
(one per decan) keyed by solar-term index, for Yin boards. -/
def yin_mapping (idx : Nat) : Option (Nat × Nat × Nat) :=
  match idx with
  | 11 => some (9, 3, 6) | 12 => some (8, 2, 5) | 13 => some (7, 1, 4)
  | 14 => some (2, 5, 8) | 15 => some (1, 4, 7) | 16 => some (9, 3, 6)
  | 17 => some (7, 1, 4) | 18 => some (6, 9, 3) | 19 => some (5, 8, 2)
  | 20 => some (6, 9, 3) | 21 => some (5, 8, 2) | 22 => some (4, 7, 1)
  | _ => none

/-- The `yang_mapping` dict of `board_and_ju`: three candidate ju values
(one per decan) keyed by solar-term index, for Yang boards. -/
def yang_mapping (idx : Nat) : Option (Nat × Nat × Nat) :=
  match idx with
  | 23 => some (1, 7, 4) | 0 => some (2, 8, 5) | 1 => some (3, 9, 6)
  | 2 => some (8, 5, 2) | 3 => some (9, 6, 3) | 4 => some (1, 7, 4)
  | 5 => some (3, 9, 6) | 6 => some (4, 1, 7) | 7 => some (5, 2, 8)
  | 8 => some (4, 1, 7) | 9 => some (5, 2, 8) | 10 => some (6, 3, 9)
  | _ => none

/-- Python tuple indexing `t[i]` for a 3-tuple, at the indices 0, 1, 2
actually used (the decan is always one of those). -/
def tripleGet (t : Nat × Nat × Nat) : Nat → Nat
  | 0 => t.1
  | 1 => t.2.1
  | _ => t.2.2

/-- Embeds `board_and_ju` of `qimen.py`: board type ("yin"/"yang"),
solar-term index, and ju number for a civil date (the function reads only
year, month and day of its datetime argument). -/
def board_and_ju (year month day : Nat) : String × Nat × Nat :=
  let idx := solar_term_index month day
  let board_type := if 11 ≤ idx ∧ idx < 23 then "yin" else "yang"
  let tb := boundaries.getD idx (0, 0)
  let diff0 : Int := daysFromCivil year month day - daysFromCivil year tb.1 tb.2
  let diff_days : Int :=
    if diff0 < 0 then
      let pb := boundaries.getD ((((idx : Int) - 1) % (boundaries.length : Int)).toNat) (0, 0)
      daysFromCivil year month day - daysFromCivil (year - 1) pb.1 pb.2
    else diff0
  let decan : Nat := if diff_days < 10 then 0 else if diff_days < 20 then 1 else 2
  let ju :=
    if board_type = "yin" then tripleGet ((yin_mapping idx).getD (1, 4, 7)) decan
    else tripleGet ((yang_mapping idx).getD (1, 7, 4)) decan
  (board_type, idx, ju)


/-- Embeds `fly_items` of `qimen.py`.  The Python dict (whose keys are
distinct in every use) is modelled as the association list of
(palace, item) pairs in insertion order. -/
def fly_items (board_type : String) (ju : Nat) (items : List String) :
    List (Nat × String) :=
  ((List.range items.length).zip items).map (fun p =>
    let pos_idx : Nat :=
      if board_type = "yang" then
        ((((ju : Int) - 1) + (p.1 : Int)) % (PALACE_NUMBERS.length : Int)).toNat
      else
        ((((ju : Int) - 1) - (p.1 : Int)) % (PALACE_NUMBERS.length : Int)).toNat
    (PALACE_NUMBERS.getD pos_idx 0, p.2))


/-- The `seq` list comprehension in `generate_chart`: the nine 0-based palace
positions visited by the gate walk, forward on Yang boards and backward on
Yin boards. -/
def gate_seq (board_type : String) (ju : Nat) : List Nat :=
  (List.range 9).map (fun i =>
    if board_type = "yang" then ((((ju : Int) - 1) + (i : Int)) % 9).toNat
    else ((((ju : Int) - 1) - (i : Int)) % 9).toNat)

/-- The gate-walk loop of `generate_chart`: walk the position sequence,
skip the centre palace 5 without consuming a gate slot, and stop once
`len(EIGHT_GATES)` palaces have been collected. -/
def build_flying_order : List Nat → List Nat → List Nat
  | [], acc => acc
  | idxv :: rest, acc =>
      let palace := PALACE_NUMBERS.getD idxv 0
      if palace = 5 then build_flying_order rest acc
      else
        let acc' := acc ++ [palace]
        if acc'.length = EIGHT_GATES.length then acc'
        else build_flying_order rest acc'

/-- The `flying_order` list built inside `generate_chart`. -/
def flying_order (board_type : String) (ju : Nat) : List Nat :=
  build_flying_order (gate_seq board_type ju) []

/-- The `gates_mapping` dict of `generate_chart`: gates zipped onto the
flying order (keys are distinct, so insertion-order pairs model the dict). -/
def gates_mapping (board_type : String) (ju : Nat) : List (Nat × String) :=
  (flying_order board_type ju).zip EIGHT_GATES


/-- Python `dict.get(k, default)` over an insertion-ordered association
list: the last binding of `k` wins (dict overwrite semantics). -/
def dictGetD (l : List (Nat × String)) (k : Nat) (dflt : String) : String :=
  l.foldl (fun acc p => if p.1 = k then p.2 else acc) dflt

/-- The `year_start_stem_lookup` dict of `sexagenary_year_month`, keyed by
the year stem index (always in 0..9; 4 and 9 map to 0). -/
def year_start_stem_lookup (stem_year : Nat) : Nat :=
  match stem_year with
  | 0 => 2 | 5 => 2
  | 1 => 4 | 6 => 4
  | 2 => 6 | 7 => 6
  | 3 => 8 | 8 => 8
  | _ => 0

/-- Embeds `sexagenary_year_month` of `qimen.py`: ((year stem, year branch),
(month stem, month branch)) for a civil date. -/
def sexagenary_year_month (year month day : Nat) : (Nat × Nat) × (Nat × Nat) :=
  let term_idx := solar_term_index month day
  let year_for_pillar := if pairLt (month, day) (2, 4) then year - 1 else year
  let stem_year := (((year_for_pillar : Int) - 4) % 10).toNat
  let branch_year := (((year_for_pillar : Int) - 4) % 12).toNat
  let month_index := ((((term_idx : Int) - 2) / 2) % 12).toNat
  let start_stem := year_start_stem_lookup stem_year
  let stem_month := (start_stem + month_index) % 10
  let branch_month := (month_index + 2) % 12
  ((stem_year, branch_year), (stem_month, branch_month))

/-- One entry of the `palaces` list of a chart: palace number, gate label
(empty when absent) and star label (empty when absent). -/
structure PalaceEntry where
  position : Nat
  gate : String
  star : String
deriving DecidableEq

/-- The chart dict returned by `generate_chart` in `qimen.py`. -/
structure Chart where
  year_pillar : String
  month_pillar : String
  day_pillar : String
  hour_pillar : String
  board_type : String
  term_index : Nat
  ju : Nat
  palaces : List PalaceEntry
deriving DecidableEq

/-- Embeds `generate_chart` of `qimen.py` (the function reads year, month,
day and hour of its datetime argument). -/
def generate_chart (year month day hour : Nat) : Chart :=
  let ym := sexagenary_year_month year month day
  let sd := sexagenary_day year month day
  let sh := sexagenary_hour hour sd.1
  let bij := board_and_ju year month day
  let board_type := bij.1
  let term_idx := bij.2.1
  let ju := bij.2.2
  let star_map := fly_items board_type ju NINE_STARS
  let gm := gates_mapping board_type ju
  let palaces := PALACE_NUMBERS.map (fun palace =>
    PalaceEntry.mk palace (dictGetD gm palace "") (dictGetD star_map palace ""))
  { year_pillar := HEAVENLY_STEMS.getD ym.1.1 "" ++ EARTHLY_BRANCHES.getD ym.1.2 ""
    month_pillar := HEAVENLY_STEMS.getD ym.2.1 "" ++ EARTHLY_BRANCHES.getD ym.2.2 ""
    day_pillar := HEAVENLY_STEMS.getD sd.1 "" ++ EARTHLY_BRANCHES.getD sd.2 ""
    hour_pillar := HEAVENLY_STEMS.getD sh.1 "" ++ EARTHLY_BRANCHES.getD sh.2 ""
    board_type := board_type
    term_index := term_idx
    ju := ju
    palaces := palaces }

/-- Python truthiness of the `context: str | None` argument: `None` and the
empty string are falsy, every other string is truthy. -/
def pyTruthy (s : Option String) : Bool :=
  match s with
  | none => false
  | some c => c != ""

/-- The per-palace lines of `chart_to_prompt` (`palace['gate'] or '—'`
renders the em-dash placeholder for an empty label). -/
def palace_lines (palaces : List PalaceEntry) : List String :=
  palaces.map (fun p =>
    let gate := if p.gate = "" then "—" else p.gate
    let star := if p.star = "" then "—" else p.star
    "  " ++ toString p.position ++ ": " ++ gate ++ "/" ++ star)

/-- The lines of `chart_to_prompt` up to and including the palace block
(everything appended before the optional context block). -/
def chart_pre_lines (chart : Chart) : List String :=
  ["You are a Qimen Dunjia divination assistant.  Use the provided chart to guide your answer.",
   "Year pillar: " ++ chart.year_pillar ++ ", Month pillar: " ++ chart.month_pillar
     ++ ", Day pillar: " ++ chart.day_pillar ++ ", Hour pillar: " ++ chart.hour_pillar,
   "Board type: " ++ (if chart.board_type = "yin" then "Yin" else "Yang")
     ++ " dun, Ju: " ++ toString chart.ju,
   "Palaces (position: Gate/Star):"] ++ palace_lines chart.palaces

/-- The full `lines` list of `chart_to_prompt`: the fixed block, then the
context block when `context` is truthy, then the question block.  Python's
`question.strip()` is modelled by `String.trim`. -/
def chart_to_prompt_lines (chart : Chart) (question : String)
    (context : Option String) : List String :=
  chart_pre_lines chart ++
    (if pyTruthy context then ["Context:", context.getD ""] else []) ++
    ["Question:", question.trim]

/-- Embeds `chart_to_prompt` of `qimen.py`: the joined prompt string. -/
def chart_to_prompt (chart : Chart) (question : String)
    (context : Option String) : String :=
  String.intercalate "\n" (chart_to_prompt_lines chart question context)

/-- Calendar validity of a (year, month, day) triple in the proleptic
Gregorian calendar (no upper year bound). -/
def calValid (x : Nat × Nat × Nat) : Prop :=
  1 ≤ x.1 ∧ 1 ≤ x.2.1 ∧ x.2.1 ≤ 12 ∧ 1 ≤ x.2.2 ∧
    x.2.2 ≤ daysInMonth (isLeap x.1) x.2.1

instance (x : Nat × Nat × Nat) : Decidable (calValid x) := by
  unfold calValid; infer_instance

/-- Successor of a civil date in the proleptic Gregorian calendar.  Models
Python's `date + timedelta(days=1)`. -/
def nextDay (x : Nat × Nat × Nat) : Nat × Nat × Nat :=
  if x.2.2 < daysInMonth (isLeap x.1) x.2.1 then (x.1, x.2.1, x.2.2 + 1)
  else if x.2.1 < 12 then (x.1, x.2.1 + 1, 1)
  else (x.1 + 1, 1, 1)

/-- The civil date `n` days after `x`.  Models Python's
`date + timedelta(days=n)`. -/
def addDays (n : Nat) (x : Nat × Nat × Nat) : Nat × Nat × Nat :=
  nextDay^[n] x


/-- Python lexicographic tuple comparison `a <= b`. -/
def pairLe (a b : Nat × Nat) : Bool :=
  pairLt a b || a == b

/-- Follows the spec's words (Solar Term Locator contract): the number of
fixed boundaries at or before the given (month, day). -/
def spec_boundary_count (month day : Nat) : Nat :=
  boundaries.countP (fun b => pairLe b (month, day))

/-- Follows the spec's words: the index of the *last* boundary at or before
the given (month, day); if the date precedes the first boundary of the year
(before Jan 6), it wraps to the last term of the table (index 23). -/
def spec_last_term_index (month day : Nat) : Nat :=
  if spec_boundary_count month day = 0 then boundaries.length - 1
  else spec_boundary_count month day - 1

/-- Successor of a (month, day) pair within one civil year of the given
leapness; `none` past December 31. -/
def nextDateInYear (leap : Bool) (month day : Nat) : Option (Nat × Nat) :=
  if day < daysInMonth leap month then some (month, day + 1)
  else if month < 12 then some (month + 1, 1)
  else none

/-- Mapping a first-component function over a zip with a long enough right
list is mapping over the left list. -/
theorem zip_map_fst_dep {γ : Type} (g : Nat → γ) :
    ∀ (l1 : List Nat) (l2 : List String), l1.length ≤ l2.length →
      (l1.zip l2).map (fun p => g p.1) = l1.map g
  | [], _, _ => rfl
  | _ :: as, _ :: bs, h => by
      simp only [List.zip_cons_cons, List.map_cons]
      rw [zip_map_fst_dep g as bs (by simpa using h)]
  | _ :: _, [], h => by simp at h

/-- The palace keys produced by `fly_items`, in placement order: the walked
palace sequence read off from `PALACE_NUMBERS`. -/
theorem fly_items_map_fst (bt : String) (ju : Nat) (items : List String) :
    (fly_items bt ju items).map Prod.fst
      = (List.range items.length).map (fun (i : Nat) =>
          PALACE_NUMBERS.getD
            (if bt = "yang" then
              ((((ju : Int) - 1) + (i : Int)) % (PALACE_NUMBERS.length : Int)).toNat
             else
              ((((ju : Int) - 1) - (i : Int)) % (PALACE_NUMBERS.length : Int)).toNat) 0) := by
  unfold fly_items
  rw [List.map_map]
  have h := zip_map_fst_dep (fun (i : Nat) =>
    PALACE_NUMBERS.getD
      (if bt = "yang" then
        ((((ju : Int) - 1) + (i : Int)) % (PALACE_NUMBERS.length : Int)).toNat
       else
        ((((ju : Int) - 1) - (i : Int)) % (PALACE_NUMBERS.length : Int)).toNat) 0)
    (List.range items.length) items (by simp)
  simpa using h

/-- The items of `fly_items`, in placement order: exactly the input items. -/
theorem fly_items_map_snd (bt : String) (ju : Nat) (items : List String) :
    (fly_items bt ju items).map Prod.snd = items := by
  unfold fly_items
  rw [List.map_map]
  have h : (List.range items.length).length ≤ items.length := by simp
  calc ((List.range items.length).zip items).map _
      = ((List.range items.length).zip items).map Prod.snd := rfl
    _ = items := List.map_snd_zip _ _ (by simp)

/-- Arithmetic characterisation of the leap-year test. -/
theorem isLeap_iff (y : Nat) :
    isLeap y = true ↔ ((y % 4 = 0 ∧ y % 100 ≠ 0) ∨ y % 400 = 0) := by
  simp [isLeap, Bool.or_eq_true, Bool.and_eq_true, beq_iff_eq, bne_iff_ne]

/-- The Julian day number is linear in the day within a month. -/
theorem julian_day_day_succ (y m d : Nat) :
    julian_day y m (d + 1) = julian_day y m d + 1 := by
  unfold julian_day
  split_ifs <;> push_cast <;> ring

/-- The Julian day number steps by one from the last day of February to
March 1, in leap and non-leap years alike. -/
theorem julian_day_feb_succ (y : Nat) (hy : 1 ≤ y) :
    julian_day y 3 1 = julian_day y 2 (daysInMonth (isLeap y) 2) + 1 := by
  have hdim : daysInMonth (isLeap y) 2 = if isLeap y then 29 else 28 := by
    simp [daysInMonth]
  rw [hdim]
  have h4 : y % 4 = 0 ∨ y % 4 = 1 ∨ y % 4 = 2 ∨ y % 4 = 3 := by omega
  have h100 : (y % 100 = 0 ∧ (y / 100) % 4 = 0) ∨
      (y % 100 = 0 ∧ (y / 100) % 4 ≠ 0) ∨ 1 ≤ y % 100 := by omega
  cases hb : isLeap y with
  | false =>
      have hL2 : ¬ ((y % 4 = 0 ∧ y % 100 ≠ 0) ∨ y % 400 = 0) :=
        (not_congr (isLeap_iff y)).mp (by simp [hb])
      simp only [hb, Bool.false_eq_true, if_false]
      simp only [julian_day]
      norm_num
      rcases h4 with h4 | h4 | h4 | h4 <;>
        rcases h100 with ⟨ha, hc⟩ | ⟨ha, hc⟩ | ha <;> omega
  | true =>
      have hL2 : (y % 4 = 0 ∧ y % 100 ≠ 0) ∨ y % 400 = 0 := (isLeap_iff y).mp hb
      simp only [hb, if_true]
      simp only [julian_day]
      norm_num
      rcases h4 with h4 | h4 | h4 | h4 <;>
        rcases h100 with ⟨ha, hc⟩ | ⟨ha, hc⟩ | ha <;> omega

/-- The Julian day number steps by one from the last day of a month (other
than December) to the first day of the next month. -/
theorem julian_day_month_succ (y m : Nat) (hy : 1 ≤ y) (hm1 : 1 ≤ m)
    (hm2 : m ≤ 11) :
    julian_day y (m + 1) 1 = julian_day y m (daysInMonth (isLeap y) m) + 1 := by
  interval_cases m
  · simp [julian_day, daysInMonth]; omega
  · exact julian_day_feb_succ y hy
  all_goals (simp [julian_day, daysInMonth]; omega)

/-- The Julian day number steps by one from December 31 to January 1. -/
theorem julian_day_year_succ (y : Nat) :
    julian_day (y + 1) 1 1 = julian_day y 12 31 + 1 := by
  simp [julian_day]
  omega

/-- The Julian day number formula of `julian_day` advances by exactly one
across every calendar-day boundary of the proleptic Gregorian calendar. -/
theorem julian_day_nextDay (y m d : Nat) (hy : 1 ≤ y) (hm1 : 1 ≤ m)
    (hm2 : m ≤ 12) (hd1 : 1 ≤ d) (hd2 : d ≤ daysInMonth (isLeap y) m) :
    julian_day (nextDay (y, m, d)).1 (nextDay (y, m, d)).2.1
      (nextDay (y, m, d)).2.2 = julian_day y m d + 1 := by
  unfold nextDay
  split_ifs with h1 h2 <;> dsimp only at h1 ⊢
  · exact julian_day_day_succ y m d
  · have hd : d = daysInMonth (isLeap y) m := by omega
    dsimp only at h2
    rw [hd]
    exact julian_day_month_succ y m hy hm1 (by omega)
  · dsimp only at h2
    have hm : m = 12 := by omega
    subst hm
    have hd : d = 31 := by simp [daysInMonth] at hd2 h1; omega
    subst hd
    exact julian_day_year_succ y

/-- Every month of the civil calendar has at least one day. -/
theorem one_le_daysInMonth (l : Bool) (m : Nat) : 1 ≤ daysInMonth l m := by
  unfold daysInMonth; split_ifs <;> omega

/-- The calendar successor of a valid proleptic Gregorian date is valid. -/
theorem calValid_nextDay (x : Nat × Nat × Nat) (h : calValid x) :
    calValid (nextDay x) := by
  obtain ⟨y, m, d⟩ := x
  obtain ⟨hy, hm1, hm2, hd1, hd2⟩ := h
  dsimp only at hy hm1 hm2 hd1 hd2
  unfold nextDay calValid
  split_ifs with h1 h2 <;> dsimp only at *
  · exact ⟨hy, hm1, hm2, by omega, by omega⟩
  · exact ⟨hy, by omega, by omega, le_refl 1, one_le_daysInMonth _ _⟩
  · exact ⟨by omega, by omega, by omega, le_refl 1, one_le_daysInMonth _ _⟩

/-- Unfolding of the day-addition iterator. -/
theorem addDays_succ (n : Nat) (x : Nat × Nat × Nat) :
    addDays (n + 1) x = nextDay (addDays n x) :=
  Function.iterate_succ_apply' nextDay n x

/-- Adding `n` days to a valid date yields a valid date and advances the
Julian day number by exactly `n`. -/
theorem julian_day_addDays (n : Nat) (x : Nat × Nat × Nat) (h : calValid x) :
    calValid (addDays n x) ∧
      julian_day (addDays n x).1 (addDays n x).2.1 (addDays n x).2.2
        = julian_day x.1 x.2.1 x.2.2 + n := by
  induction n with
  | zero => exact ⟨h, by simp [addDays]⟩
  | succ k ih =>
      obtain ⟨hv, hj⟩ := ih
      obtain ⟨h1, h2, h3, h4, h5⟩ := hv
      have key := julian_day_nextDay (addDays k x).1 (addDays k x).2.1
        (addDays k x).2.2 h1 h2 h3 h4 h5
      have e : ((addDays k x).1, (addDays k x).2.1, (addDays k x).2.2)
          = addDays k x := rfl
      rw [e] at key
      refine ⟨?_, ?_⟩
      · rw [addDays_succ]
        exact calValid_nextDay (addDays k x) ⟨h1, h2, h3, h4, h5⟩
      · rw [addDays_succ, key, hj]
        push_cast
        ring

/-- The scan loop of the solar-term locator stays within the table bounds. -/
theorem findTermAux_le (month day : Nat) : ∀ (l : List (Nat × Nat)) (i : Nat),
    i + l.length ≤ 24 → findTermAux month day i l ≤ 23 := by
  intro l
  induction l with
  | nil => intro i hi; simp [findTermAux, boundaries]
  | cons b rest ih =>
      intro i hi
      unfold findTermAux
      split_ifs with h1 h2
      · simp only [List.length_cons] at hi; omega
      · simp [boundaries]
      · exact ih (i + 1) (by simp only [List.length_cons] at hi; omega)

/-- The solar-term locator never returns an index beyond 23. -/
theorem solar_term_index_le (month day : Nat) : solar_term_index month day ≤ 23 :=
  findTermAux_le month day boundaries 0 (by simp [boundaries])

/-- The board type computed by `board_and_ju` is one of the two literals. -/
theorem board_and_ju_fst (y m d : Nat) :
    (board_and_ju y m d).1 = "yin" ∨ (board_and_ju y m d).1 = "yang" := by
  unfold board_and_ju
  dsimp only
  split_ifs <;> simp

/-- The solar-term index returned by `board_and_ju` is the locator's value. -/
theorem board_and_ju_snd_fst (y m d : Nat) :
    (board_and_ju y m d).2.1 = solar_term_index m d := rfl

/-- The ju number of `board_and_ju` always comes from the mapping that
matches the board type (never from a fallback triple) and lies in 1..9. -/
theorem ju_facts (y m d : Nat) :
    ((board_and_ju y m d).1 = "yin" →
        yin_mapping (board_and_ju y m d).2.1 ≠ none ∧
        ((board_and_ju y m d).2.2
            = tripleGet ((yin_mapping (board_and_ju y m d).2.1).getD (1, 4, 7)) 0 ∨
         (board_and_ju y m d).2.2
            = tripleGet ((yin_mapping (board_and_ju y m d).2.1).getD (1, 4, 7)) 1 ∨
         (board_and_ju y m d).2.2
            = tripleGet ((yin_mapping (board_and_ju y m d).2.1).getD (1, 4, 7)) 2)) ∧
    ((board_and_ju y m d).1 = "yang" →
        yang_mapping (board_and_ju y m d).2.1 ≠ none ∧
        ((board_and_ju y m d).2.2
            = tripleGet ((yang_mapping (board_and_ju y m d).2.1).getD (1, 7, 4)) 0 ∨
         (board_and_ju y m d).2.2
            = tripleGet ((yang_mapping (board_and_ju y m d).2.1).getD (1, 7, 4)) 1 ∨
         (board_and_ju y m d).2.2
            = tripleGet ((yang_mapping (board_and_ju y m d).2.1).getD (1, 7, 4)) 2)) ∧
    1 ≤ (board_and_ju y m d).2.2 ∧ (board_and_ju y m d).2.2 ≤ 9 := by
  have hle := solar_term_index_le m d
  unfold board_and_ju
  dsimp only
  generalize hg : solar_term_index m d = idx at hle ⊢
  interval_cases idx <;> split_ifs <;>
    first | decide | (exfalso; omega) | (exfalso; simp_all)

/-- For both board literals and every ju in 1..9, the gate walk never binds
palace 5 in the gates dict. -/
theorem gates_mapping_no_center :
    ∀ bt ∈ (["yang", "yin"] : List String), ∀ ju < 10, 1 ≤ ju →
      dictGetD (gates_mapping bt ju) 5 "" = "" := by decide

/-- In every chart assembled by `generate_chart`, the palace-5 entry carries
the empty gate label. -/
theorem generate_chart_palace5_gate (y m d hour : Nat) :
    ∀ e ∈ (generate_chart y m d hour).palaces, e.position = 5 → e.gate = "" := by
  intro e he hp
  unfold generate_chart at he
  dsimp only at he
  rw [List.mem_map] at he
  obtain ⟨p, hpmem, rfl⟩ := he
  dsimp only at hp ⊢
  subst hp
  have hju := (ju_facts y m d).2.2
  rcases board_and_ju_fst y m d with hbt | hbt <;> rw [hbt] <;>
    exact gates_mapping_no_center _ (by decide) _ (by omega) hju.1

/-- C1: at a date that precedes its located term's boundary within the civil
year (2024-01-03, located term index 23 whose boundary is December 22),
`board_and_ju` resolves the term start against the previous year's occurrence
of the PREVIOUS term's boundary (December 7), obtaining 27 elapsed days and
decan 2, hence ju 4 — although only 12 days elapsed since the previous year's
December 22 occurrence of the located term itself, which is decan 1 and would
select ju 7 from the same table row. -/
theorem C1_january_wrap_divergence :
    board_and_ju 2024 1 3 = ("yang", 23, 4) ∧
    boundaries.getD 23 (0, 0) = (12, 22) ∧
    boundaries.getD ((((23 : Int) - 1) % (boundaries.length : Int)).toNat) (0, 0) = (12, 7) ∧
    daysFromCivil 2024 1 3 - daysFromCivil 2023 12 7 = 27 ∧
    daysFromCivil 2024 1 3 - daysFromCivil 2023 12 22 = 12 ∧
    tripleGet ((yang_mapping 23).getD (1, 7, 4)) 1 = 7 ∧
    tripleGet ((yang_mapping 23).getD (1, 7, 4)) 2 = 4 := by decide

/-- C2: for both board types and every ju in 1..9, flying the nine stars
assigns exactly one star to each of the nine palaces: the palace keys are
pairwise distinct and a permutation of all nine palace numbers, and the
values are exactly the nine stars in order. -/
theorem C2_nine_star_bijection :
    ∀ bt ∈ (["yang", "yin"] : List String), ∀ ju < 10, 1 ≤ ju →
      ((fly_items bt ju NINE_STARS).map Prod.fst).Nodup ∧
      List.Perm ((fly_items bt ju NINE_STARS).map Prod.fst) PALACE_NUMBERS ∧
      (fly_items bt ju NINE_STARS).map Prod.snd = NINE_STARS := by decide

/-- Witness for C2 at board "yang", ju 1. -/
theorem C2_nine_star_bijection_witness :
    "yang" ∈ (["yang", "yin"] : List String) ∧ 1 < 10 ∧ 1 ≤ 1 ∧
      (((fly_items "yang" 1 NINE_STARS).map Prod.fst).Nodup ∧
       List.Perm ((fly_items "yang" 1 NINE_STARS).map Prod.fst) PALACE_NUMBERS ∧
       (fly_items "yang" 1 NINE_STARS).map Prod.snd = NINE_STARS) :=
  ⟨by decide, by decide, by decide,
   C2_nine_star_bijection "yang" (by decide) 1 (by decide) (by decide)⟩

/-- C3: for both board types and every ju in 1..9, the gate walk collects
exactly eight pairwise-distinct palaces, never palace 5, all of them real
palace numbers; and in every chart `generate_chart` assembles, the palace-5
entry has no gate. -/
theorem C3_gates_skip_center :
    (∀ bt ∈ (["yang", "yin"] : List String), ∀ ju < 10, 1 ≤ ju →
      (flying_order bt ju).length = 8 ∧ (flying_order bt ju).Nodup ∧
      5 ∉ flying_order bt ju ∧
      ∀ p ∈ flying_order bt ju, p ∈ PALACE_NUMBERS) ∧
    (∀ y m d hour : Nat, ∀ e ∈ (generate_chart y m d hour).palaces,
      e.position = 5 → e.gate = "") := by
  constructor
  · decide
  · intro y m d hour
    exact generate_chart_palace5_gate y m d hour

/-- Witness for C3 at board "yin", ju 5 and a concrete chart. -/
theorem C3_gates_skip_center_witness :
    "yin" ∈ (["yang", "yin"] : List String) ∧ 5 < 10 ∧ 1 ≤ 5 ∧
      ((flying_order "yin" 5).length = 8 ∧ (flying_order "yin" 5).Nodup ∧
       5 ∉ flying_order "yin" 5 ∧ ∀ p ∈ flying_order "yin" 5, p ∈ PALACE_NUMBERS) ∧
      (∀ e ∈ (generate_chart 2024 6 25 10).palaces, e.position = 5 → e.gate = "") :=
  ⟨by decide, by decide, by decide,
   C3_gates_skip_center.1 "yin" (by decide) 5 (by decide) (by decide),
   C3_gates_skip_center.2 2024 6 25 10⟩

/-- On a Yang board the walked position index agrees with the plain natural
formula (ju - 1 + i) mod 9. -/
theorem pos_yang_eq (ju i : Nat) (h : 1  ≤ ju) :
    ((((ju : Int) - 1) + (i : Int)) % (PALACE_NUMBERS.length : Int)).toNat
      = (ju - 1 + i) % 9 := by
  have hlen : (PALACE_NUMBERS.length : Int) = 9 := by decide
  rw [hlen]
  omega

/-- C4: `fly_items` puts the i-th item on the palace at 0-based position
(ju - 1 + i) mod 9 of the palace sequence on Yang boards and at
(ju - 1 - i) mod 9 (mathematical modulus) on Yin boards; with ju 1 the nine
stars land on palaces 1..9 in order on a Yang board and on
1,9,8,7,6,5,4,3,2 on a Yin board. -/
theorem C4_fly_positions :
    (∀ ju, 1 ≤ ju → ∀ items : List String, ∀ i, i < items.length →
      ((fly_items "yang" ju items).map Prod.fst)[i]?
          = some (PALACE_NUMBERS.getD ((ju - 1 + i) % 9) 0) ∧
      ((fly_items "yin" ju items).map Prod.fst)[i]?
          = some (PALACE_NUMBERS.getD (((((ju : Int) - 1) - (i : Int)) % 9).toNat) 0) ∧
      (fly_items "yang" ju items).map Prod.snd = items ∧
      (fly_items "yin" ju items).map Prod.snd = items) ∧
    (fly_items "yang" 1 NINE_STARS).map Prod.fst = [1, 2, 3, 4, 5, 6, 7, 8, 9] ∧
    (fly_items "yin" 1 NINE_STARS).map Prod.fst = [1, 9, 8, 7, 6, 5, 4, 3, 2] := by
  refine ⟨?_, by decide, by decide⟩
  intro ju hju items i hi
  refine ⟨?_, ?_, fly_items_map_snd _ ju items, fly_items_map_snd _ ju items⟩
  · rw [fly_items_map_fst, List.getElem?_map, List.getElem?_range hi]
    simp [pos_yang_eq ju i hju]
  · rw [fly_items_map_fst, List.getElem?_map, List.getElem?_range hi]
    simp [PALACE_NUMBERS]

/-- Witness for C4 at ju 1, the nine stars, position 1. -/
theorem C4_fly_positions_witness :
    1 ≤ 1 ∧ 1 < NINE_STARS.length ∧
      (((fly_items "yang" 1 NINE_STARS).map Prod.fst)[1]?
          = some (PALACE_NUMBERS.getD ((1 - 1 + 1) % 9) 0) ∧
       ((fly_items "yin" 1 NINE_STARS).map Prod.fst)[1]?
          = some (PALACE_NUMBERS.getD (((((1 : Int) - 1) - (1 : Int)) % 9).toNat) 0) ∧
       (fly_items "yang" 1 NINE_STARS).map Prod.snd = NINE_STARS ∧
       (fly_items "yin" 1 NINE_STARS).map Prod.snd = NINE_STARS) :=
  ⟨by decide, by decide, C4_fly_positions.1 1 (by decide) NINE_STARS 1 (by decide)⟩

/-- C5: `board_and_ju` reports a Yin (reverse) board exactly when the located
solar-term index lies in [11, 23), and a Yang (forward) board exactly when
the index is at most 10 or equal to 23. -/
theorem C5_board_type_iff (y m d : Nat) :
    ((board_and_ju y m d).1 = "yin"
        ↔ 11 ≤ solar_term_index m d ∧ solar_term_index m d < 23) ∧
    ((board_and_ju y m d).1 = "yang"
        ↔ (solar_term_index m d ≤ 10 ∨ solar_term_index m d = 23)) := by
  have hle := solar_term_index_le m d
  have hfst : (board_and_ju y m d).1
      = (if 11 ≤ solar_term_index m d ∧ solar_term_index m d < 23
         then "yin" else "yang") := rfl
  rw [hfst]
  split_ifs with h
  · refine ⟨⟨fun _ => h, fun _ => rfl⟩, ?_, ?_⟩
    · intro he; exact absurd he (by decide)
    · intro hor; exfalso; omega
  · refine ⟨⟨?_, ?_⟩, ?_, ?_⟩
    · intro he; exact absurd he (by decide)
    · intro hh; exact absurd hh h
    · intro _; omega
    · intro _; rfl

/-- C7: the hour pillar's branch index is floor((hour + 1) / 2) mod 12 —
zero for hour 23 and for hour 0, whatever the minute, since the source reads
only the hour — and its stem index is (2 × day-stem + branch) mod 10. -/
theorem C7_hour_pillar (hour ds : Nat) :
    (sexagenary_hour hour ds).2 = ((hour + 1) / 2) % 12 ∧
    (sexagenary_hour hour ds).1 = (2 * ds + (sexagenary_hour hour ds).2) % 10 ∧
    (sexagenary_hour 23 ds).2 = 0 ∧ (sexagenary_hour 0 ds).2 = 0 := by
  refine ⟨rfl, ?_, rfl, rfl⟩
  unfold sexagenary_hour
  dsimp only
  rw [Nat.mul_comm]

/-- Transitivity of the lexicographic date order. -/
theorem pairLe_trans (a b c : Nat × Nat) (h1 : pairLe a b = true)
    (h2 : pairLe b c = true) : pairLe a c = true := by
  unfold pairLe pairLt at *
  simp only [Bool.or_eq_true, Bool.and_eq_true, decide_eq_true_eq,
    beq_iff_eq, Prod.ext_iff] at *
  omega

/-- Later dates see at least as many elapsed boundaries. -/
theorem spec_count_mono (m1 d1 m2 d2 : Nat)
    (h : pairLe (m1, d1) (m2, d2) = true) :
    spec_boundary_count m1 d1 ≤ spec_boundary_count m2 d2 := by
  unfold spec_boundary_count
  exact List.countP_mono_left (fun b _ hb => pairLe_trans b (m1, d1) (m2, d2) hb h)

/-- From January 6 on, at least one boundary has passed. -/
theorem spec_count_pos (m d : Nat) (h : pairLe (1, 6) (m, d) = true) :
    1 ≤ spec_boundary_count m d := by
  unfold spec_boundary_count
  exact List.countP_pos_iff.mpr ⟨(1, 6), by decide, h⟩

/-- The locator agrees with the spec's last-boundary-at-or-before reading on
every (month, day) pair in range. -/
theorem solar_eq_spec : ∀ m < 13, ∀ d < 32, 1 ≤ m → 1 ≤ d →
    solar_term_index m d = spec_last_term_index m d := by decide

/-- C6: the locator returns the index of the last fixed boundary at or
before the date, wrapping to 23 before January 6; it is monotone
non-decreasing from January 6 through December 31; and it changes value only
when the next calendar day is itself one of the 24 boundaries. -/
theorem C6_locator_last_boundary :
    (∀ m < 13, ∀ d < 32, 1 ≤ m → 1 ≤ d →
        solar_term_index m d = spec_last_term_index m d) ∧
    (∀ m d : Nat, pairLt (m, d) (1, 6) = true → solar_term_index m d = 23) ∧
    (∀ m1 d1 m2 d2 : Nat, m1 < 13 → d1 < 32 → m2 < 13 → d2 < 32 →
        1 ≤ m1 → 1 ≤ d1 → 1 ≤ m2 → 1 ≤ d2 →
        pairLe (1, 6) (m1, d1) = true → pairLe (m1, d1) (m2, d2) = true →
        solar_term_index m1 d1 ≤ solar_term_index m2 d2) ∧
    (∀ leap : Bool, ∀ m < 13, ∀ d < 32,
        (1 ≤ m ∧ 1 ≤ d ∧ d ≤ daysInMonth leap m ∧
          (nextDateInYear leap m d).getD (13, 1) ∉ boundaries) →
        solar_term_index ((nextDateInYear leap m d).getD (13, 1)).1
            ((nextDateInYear leap m d).getD (13, 1)).2
          = solar_term_index m d) := by
  refine ⟨solar_eq_spec, ?_, ?_, ?_⟩
  · intro m d h
    simp [solar_term_index, findTermAux, boundaries, h]
  · intro m1 d1 m2 d2 hm1 hd1 hm2 hd2 hm1b hd1b hm2b hd2b hge hle
    rw [solar_eq_spec m1 hm1 d1 hd1 hm1b hd1b, solar_eq_spec m2 hm2 d2 hd2 hm2b hd2b]
    have c1 := spec_count_pos m1 d1 hge
    have cm := spec_count_mono m1 d1 m2 d2 hle
    unfold spec_last_term_index
    rw [if_neg (by omega), if_neg (by omega)]
    omega
  · intro leap
    cases leap <;> decide

/-- Witness for C6 at concrete dates. -/
theorem C6_locator_last_boundary_witness :
    solar_term_index 6 21 = spec_last_term_index 6 21 ∧
    solar_term_index 1 3 = 23 ∧
    solar_term_index 3 10 ≤ solar_term_index 7 15 ∧
    solar_term_index ((nextDateInYear false 3 10).getD (13, 1)).1
        ((nextDateInYear false 3 10).getD (13, 1)).2 = solar_term_index 3 10 :=
  ⟨C6_locator_last_boundary.1 6 (by decide) 21 (by decide) (by decide) (by decide),
   C6_locator_last_boundary.2.1 1 3 (by decide),
   C6_locator_last_boundary.2.2.1 3 10 7 15 (by decide) (by decide) (by decide)
     (by decide) (by decide) (by decide) (by decide) (by decide) (by decide)
     (by decide),
   C6_locator_last_boundary.2.2.2 false 3 (by decide) 10 (by decide)
     (by decide)⟩

/-- C8: for every valid proleptic Gregorian date, the day pillar of the date
60 days later has the same stem index and the same branch index. -/
theorem C8_day_pillar_sixty_periodic (y m d : Nat) (h : validDate y m d) :
    sexagenary_day (addDays 60 (y, m, d)).1 (addDays 60 (y, m, d)).2.1
        (addDays 60 (y, m, d)).2.2 = sexagenary_day y m d := by
  obtain ⟨h1, h2, h3, h4, h5, h6⟩ := h
  obtain ⟨hv, hj⟩ := julian_day_addDays 60 (y, m, d) ⟨h1, h3, h4, h5, h6⟩
  unfold sexagenary_day
  rw [hj]
  dsimp only
  simp only [Prod.mk.injEq]
  constructor <;> omega

/-- Witness for C8 at 2024-01-03 (whose 60th successor is 2024-03-03). -/
theorem C8_day_pillar_sixty_periodic_witness :
    validDate 2024 1 3 ∧
      sexagenary_day (addDays 60 (2024, 1, 3)).1 (addDays 60 (2024, 1, 3)).2.1
          (addDays 60 (2024, 1, 3)).2.2 = sexagenary_day 2024 1 3 :=
  ⟨by decide, C8_day_pillar_sixty_periodic 2024 1 3 (by decide)⟩

/-- C9: for every input date the solar-term index computed by `board_and_ju`
is a key of the ju table matching its board type (the yin table on yin
boards, the yang table on yang boards), the returned ju is one of that table
row's three entries — so the fixed fallback triples are never used — and the
ju always lies in 1..9. -/
theorem C9_ju_always_from_tables (y m d : Nat) :
    ((board_and_ju y m d).1 = "yin" →
        yin_mapping (board_and_ju y m d).2.1 ≠ none ∧
        ((board_and_ju y m d).2.2
            = tripleGet ((yin_mapping (board_and_ju y m d).2.1).getD (1, 4, 7)) 0 ∨
         (board_and_ju y m d).2.2
            = tripleGet ((yin_mapping (board_and_ju y m d).2.1).getD (1, 4, 7)) 1 ∨
         (board_and_ju y m d).2.2
            = tripleGet ((yin_mapping (board_and_ju y m d).2.1).getD (1, 4, 7)) 2)) ∧
    ((board_and_ju y m d).1 = "yang" →
        yang_mapping (board_and_ju y m d).2.1 ≠ none ∧
        ((board_and_ju y m d).2.2
            = tripleGet ((yang_mapping (board_and_ju y m d).2.1).getD (1, 7, 4)) 0 ∨
         (board_and_ju y m d).2.2
            = tripleGet ((yang_mapping (board_and_ju y m d).2.1).getD (1, 7, 4)) 1 ∨
         (board_and_ju y m d).2.2
            = tripleGet ((yang_mapping (board_and_ju y m d).2.1).getD (1, 7, 4)) 2)) ∧
    1 ≤ (board_and_ju y m d).2.2 ∧ (board_and_ju y m d).2.2 ≤ 9 :=
  ju_facts y m d

/-- Witness for C9 at 2024-06-25, a yin board. -/
theorem C9_ju_always_from_tables_witness :
    (board_and_ju 2024 6 25).1 = "yin" ∧
    yin_mapping (board_and_ju 2024 6 25).2.1 ≠ none ∧
    1 ≤ (board_and_ju 2024 6 25).2.2 ∧ (board_and_ju 2024 6 25).2.2 ≤ 9 :=
  ⟨by decide, ((C9_ju_always_from_tables 2024 6 25).1 (by decide)).1,
   (C9_ju_always_from_tables 2024 6 25).2.2.1,
   (C9_ju_always_from_tables 2024 6 25).2.2.2⟩

/-- C10: `chart_to_prompt` emits the Context block exactly when the context
argument is a truthy (non-empty) string; the empty string behaves exactly
like passing no context at all. -/
theorem C10_context_block_iff_nonempty (chart : Chart) (q : String) :
    chart_to_prompt chart q (some "") = chart_to_prompt chart q none ∧
    chart_to_prompt_lines chart q none
        = chart_pre_lines chart ++ ["Question:", q.trim] ∧
    (∀ c : String, c ≠ "" →
      chart_to_prompt_lines chart q (some c)
        = chart_pre_lines chart ++ ["Context:", c] ++ ["Question:", q.trim]) := by
  refine ⟨rfl, by simp [chart_to_prompt_lines, pyTruthy], ?_⟩
  intro c hc
  have hb : (c != "") = true := by simpa using hc
  simp [chart_to_prompt_lines, pyTruthy, hb]

/-- Witness for C10 at a concrete chart, question, and context. -/
theorem C10_context_block_iff_nonempty_witness :
    chart_to_prompt (generate_chart 2024 6 25 10) "ask" (some "")
        = chart_to_prompt (generate_chart 2024 6 25 10) "ask" none ∧
    chart_to_prompt_lines (generate_chart 2024 6 25 10) "ask" (some "ctx")
        = chart_pre_lines (generate_chart 2024 6 25 10) ++ ["Context:", "ctx"]
            ++ ["Question:", ("ask" : String).trim] :=
  ⟨(C10_context_block_iff_nonempty (generate_chart 2024 6 25 10) "ask").1,
   (C10_context_block_iff_nonempty (generate_chart 2024 6 25 10) "ask").2.2 "ctx"
     (by decide)⟩
